import Mathlib

/-!
Verification of the manual-seal BABE engine, its heartbeat command stream,
and the offchain network-state conversions, against a shallow embedding of
the Rust sources under `client/consensus/manual-seal` and `client/offchain`.

Time is modelled in milliseconds (`Nat`); `Duration::from_secs` becomes
multiplication by 1000.  Machine integers carry no overflow in the modelled
paths, so `Nat` is used throughout.  Fallible Rust code becomes `Except`.
-/

/-- `Duration::from_secs`, with durations and instants measured in
milliseconds. -/
def from_secs (s : Nat) : Nat := 1000 * s

/-- `EngineCommand<Hash>` from `sc_consensus_manual_seal::rpc`.  The one-shot
response channels are modelled as opaque channel identifiers; both variants
carry `sender : Option Nat` (the rpc `Sender<T>` alias is an `Option` of a
oneshot sender). -/
inductive EngineCommand (Hash : Type) where
  | SealNewBlock (create_empty : Bool) (finalize : Bool)
      (parent_hash : Option Hash) (sender : Option Nat)
  | FinalizeBlock (hash : Hash) (sender : Option Nat)
      (justification : Option (List Nat))
deriving DecidableEq

/-- The sender (response channel) carried by a command. -/
def EngineCommand.sender_of {Hash : Type} : EngineCommand Hash → Option Nat
  | .SealNewBlock _ _ _ s => s
  | .FinalizeBlock _ s _ => s

/-- `Poll` from `futures::task`: the result of polling a stream or future. -/
inductive Poll (α : Type) where
  | Ready (a : α)
  | Pending
deriving DecidableEq

/-- `HeartbeatOptions` from `heartbeat_stream.rs`: `timeout` and
`min_blocktime` are in seconds, exactly as in the source. -/
structure HeartbeatOptions where
  timeout : Nat
  min_blocktime : Nat
  finalize : Bool
deriving DecidableEq

/-- `DEFAULT_TIMEOUT` from `heartbeat_stream.rs`. -/
def DEFAULT_TIMEOUT : Nat := 30

/-- `DEFAULT_MIN_BLOCKTIME` from `heartbeat_stream.rs`. -/
def DEFAULT_MIN_BLOCKTIME : Nat := 1

/-- `DEFAULT_FINALIZE` from `heartbeat_stream.rs`. -/
def DEFAULT_FINALIZE : Bool := false

/-- `Default for HeartbeatOptions`. -/
def HeartbeatOptions.default : HeartbeatOptions :=
  { timeout := DEFAULT_TIMEOUT, min_blocktime := DEFAULT_MIN_BLOCKTIME,
    finalize := DEFAULT_FINALIZE }

/-- The state of a `HeartbeatStream<Hash>`: the armed `delay_future` is
modelled by the instant (ms) at which it fires, `last_heartbeat` by the
instant of the last emission.  The wrapped `pool_stream` is external input:
its poll result is passed to `poll_next` explicitly. -/
structure HeartbeatStream where
  delay_deadline : Nat
  last_heartbeat : Option Nat
  opts : HeartbeatOptions
deriving DecidableEq

/-- `HeartbeatStream::new`.  The source `panic!`s when
`min_blocktime > timeout`; the panic is modelled as `Except.error` carrying
the panic message. -/
def HeartbeatStream.new (opts : HeartbeatOptions) (now : Nat) :
    Except String HeartbeatStream :=
  if opts.min_blocktime > opts.timeout then
    .error "Heartbeat options `min_blocktime` value must not be larger than `timeout` value."
  else
    .ok { delay_deadline := now + from_secs opts.timeout,
          last_heartbeat := none,
          opts := opts }

/-- `<HeartbeatStream as Stream>::poll_next`.  `now` is `Instant::now()`;
`inner` is the result of `pool_stream.poll_next_unpin(cx)`; the armed delay
future is `Ready` exactly when `delay_deadline ≤ now`.  Returns the updated
stream state and the poll result. -/
def HeartbeatStream.poll_next (hbs : HeartbeatStream) (now : Nat)
    (inner : Poll (Option (EngineCommand Nat))) :
    HeartbeatStream × Poll (Option (EngineCommand Nat)) :=
  match inner with
  | .Ready (some ec) =>
    match hbs.last_heartbeat with
    | some lh =>
      if now - lh < from_secs hbs.opts.min_blocktime then
        ({ hbs with delay_deadline := now + from_secs hbs.opts.min_blocktime },
         .Pending)
      else
        ({ hbs with delay_deadline := now + from_secs hbs.opts.timeout,
                    last_heartbeat := some now },
         .Ready (some ec))
    | none =>
        ({ hbs with delay_deadline := now + from_secs hbs.opts.timeout,
                    last_heartbeat := some now },
         .Ready (some ec))
  | .Ready none => (hbs, .Ready none)
  | .Pending =>
    if hbs.delay_deadline ≤ now then
      ({ hbs with delay_deadline := now + from_secs hbs.opts.timeout,
                  last_heartbeat := some now },
       .Ready (some (.SealNewBlock true hbs.opts.finalize none none)))
    else
      (hbs, .Pending)

/-- The manual-seal `Error` enum.  `BlockNotFound`, `EmptyTransactionPool`
and `StringError` are constructed directly by the source under scrutiny;
`InvalidAuthoritySet` models `sp_consensus::Error::InvalidAuthoritiesSet`
lifted through the `From` conversion at the `?` sites.  `SlotClaimFailed` is
modelled from the spec: the spec error taxonomy (section 7) lists it as a
distinct variant, but the enum declaration lives outside the given sources
and no given source constructs it.  `ImportFailed` models the spec rule that
any non-imported import outcome is mapped to a domain error. -/
inductive Error where
  | EmptyTransactionPool
  | BlockNotFound (hash : String)
  | InvalidAuthoritySet
  | SlotClaimFailed
  | StringError (msg : String)
  | ImportFailed
  | SendError
deriving DecidableEq

/-- A block header, reduced to the two observations the engine makes of it:
`header.hash()` and `header.number()`. -/
structure Header where
  hash : Nat
  number : Nat
deriving DecidableEq

deriving instance DecidableEq for Except

/-- Inherent data, reduced to the two observations made of it: `id.len()`
and `id.babe_inherent_data()` (the slot number, fallible). -/
structure InherentData where
  len : Nat
  babe_inherent_data : Except Error Nat
deriving DecidableEq

/-- A digest log item; the engine only ever builds BABE pre-digest items.
The pre-digest payload is opaque (a token). -/
inductive DigestItem where
  | babe_pre_digest (predigest : Nat)
deriving DecidableEq

/-- `sp_runtime::generic::Digest`. -/
structure Digest where
  logs : List DigestItem
deriving DecidableEq

/-- A block: a header plus its extrinsics (`deconstruct` splits it back). -/
structure Block where
  header : Header
  extrinsics : List Nat
deriving DecidableEq

/-- A proposer's output, reduced to the produced block. -/
structure Proposal where
  block : Block
deriving DecidableEq

/-- `sp_consensus::BlockOrigin`, reduced to the cases the engine can set. -/
inductive BlockOrigin where
  | Own
  | Other
deriving DecidableEq

/-- `sp_consensus::ForkChoiceStrategy`. -/
inductive ForkChoiceStrategy where
  | LongestChain
  | Custom (best : Bool)
deriving DecidableEq

/-- `BabeIntermediate`: the epoch descriptor attached as import side-data.
The descriptor itself is opaque (a token). -/
structure BabeIntermediate where
  epoch_descriptor : Nat
deriving DecidableEq

/-- `sc_consensus_babe::INTERMEDIATE_KEY`.  Modelled from the spec: the key
is an opaque string tag declared outside the given sources; its exact value
is irrelevant to the claims. -/
def INTERMEDIATE_KEY : String := "babe1"

/-- `sp_consensus::BlockImportParams`, reduced to the fields the engine
writes.  `BlockImportParams::new(origin, header)` leaves the rest at their
defaults; `intermediates` is the `HashMap<Cow<str>, Box<dyn Any>>` modelled
as an association list of `BabeIntermediate` values. -/
structure BlockImportParams where
  origin : BlockOrigin
  header : Header
  body : Option (List Nat)
  finalized : Bool
  fork_choice : Option ForkChoiceStrategy
  intermediates : List (String × BabeIntermediate)
deriving DecidableEq

/-- `BlockImportParams::new(origin, header)`. -/
def BlockImportParams.new (origin : BlockOrigin) (header : Header) :
    BlockImportParams :=
  { origin := origin, header := header, body := none, finalized := false,
    fork_choice := none, intermediates := [] }

/-- `sp_consensus::ImportResult`, reduced to the imported/other split made
by the engine; the `ImportedAux` payload is opaque (a token). -/
inductive ImportResult where
  | Imported (aux : Nat)
  | Other
deriving DecidableEq

/-- `CreatedBlock` from `sc_consensus_manual_seal`. -/
structure CreatedBlock where
  hash : Nat
  aux : Nat
deriving DecidableEq

/-- `MAX_PROPOSAL_DURATION` (seconds), a constant of
`sc_consensus_manual_seal` declared outside the given sources; its value is
irrelevant to the claims. -/
def MAX_PROPOSAL_DURATION : Nat := 10

/-- Observable collaborator invocations made by one `seal` run: proposer
initialization (`env.init`), proposer invocation (`proposer.propose`), and
submission to the import pipeline (`block_import.import_block`, with the
submitted params). -/
inductive SealEvent where
  | proposer_init
  | proposed
  | imported (params : BlockImportParams)
deriving DecidableEq

/-- The collaborators consumed by `start_babe_manual_seal`, as opaque
functions (the spec's section 6 contracts): the transaction pool's ready
count, `client.header(BlockId::Hash(_))`, `select_chain.best_chain()`,
`env.init` (the proposer is a token), the inherent-data provider,
`epoch_changes.lock().epoch_data_for_child_of(..)` with its genesis
fallback folded in (epochs are tokens), `authorship::claim_slot` against
the keystore, `proposer.propose(id, digest, max_duration, record_proof)`,
`block_import.import_block` (always called with an empty aux map), and the
finalizer used by the `FinalizeBlock` path. -/
structure SealContext where
  pool_ready : Nat
  header_of : Nat → Except Error (Option Header)
  best_chain : Except Error Header
  proposer_env : Header → Except String Nat
  create_inherent_data : Except Error InherentData
  epoch_data_for_child_of : Nat → Nat → Nat → Except String (Option Nat)
  claim_slot : Nat → Nat → Option (Nat × Nat)
  propose : Nat → InherentData → Digest → Nat → Bool → Except String Proposal
  import_block : BlockImportParams → Except Error ImportResult
  finalize_block : Nat → Option (List Nat) → Except Error Unit

/-- Parent-header resolution from `start_babe_manual_seal` (lib.rs lines
144-152): a named hash is fetched from the header backend, failing with
`BlockNotFound` when unknown; otherwise the chain selection's best header
is used. -/
def resolveParent (ctx : SealContext) (parent_hash : Option Nat) :
    Except Error Header :=
  match parent_hash with
  | some hash =>
    match ctx.header_of hash with
    | .error e => .error e
    | .ok (some header) => .ok header
    | .ok none => .error (.BlockNotFound (toString hash))
  | none => ctx.best_chain

/-- The import-params construction of `start_babe_manual_seal` (lib.rs
lines 190-194): deconstruct the proposed block, `BlockImportParams::new`
with origin own and the header, then attach the body, the caller's
`finalize` flag, and longest-chain fork choice.  No intermediates are
written. -/
def buildImportParams (proposal : Proposal) (finalize : Bool) :
    BlockImportParams :=
  { BlockImportParams.new .Own proposal.block.header with
      body := some proposal.block.extrinsics,
      finalized := finalize,
      fork_choice := some .LongestChain }

/-- The `SealNewBlock` processing closure of `start_babe_manual_seal`
(lib.rs lines 136-202), with the collaborator calls it makes recorded as
events.  Mirrors the source line by line: empty-pool early exit, parent
resolution, proposer initialization, inherent data and slot extraction,
epoch resolution (errors wrapped as strings, a missing epoch becoming
`InvalidAuthoritySet`), slot claiming (failure becoming the descriptive
claim-slot string error), digest construction, proposing,
the inherents-only re-check against `id.len()`, import-params construction,
and import. -/
def seal_new_block (ctx : SealContext) (create_empty finalize : Bool)
    (parent_hash : Option Nat) :
    Except Error CreatedBlock × List SealEvent :=
  if ctx.pool_ready = 0 ∧ create_empty = false then
    (.error .EmptyTransactionPool, [])
  else
    match resolveParent ctx parent_hash with
    | .error e => (.error e, [])
    | .ok header =>
      match ctx.proposer_env header with
      | .error err => (.error (.StringError err), [.proposer_init])
      | .ok proposer =>
        match ctx.create_inherent_data with
        | .error e => (.error e, [.proposer_init])
        | .ok id =>
          match id.babe_inherent_data with
          | .error e => (.error e, [.proposer_init])
          | .ok slot_number =>
            match ctx.epoch_data_for_child_of header.hash header.number slot_number with
            | .error e =>
              (.error (.StringError ("failed to fetch epoch data: " ++ e)),
               [.proposer_init])
            | .ok none => (.error .InvalidAuthoritySet, [.proposer_init])
            | .ok (some epoch) =>
              match ctx.claim_slot slot_number epoch with
              | none =>
                (.error (.StringError "failed to claim slot for authorship"),
                 [.proposer_init])
              | some (predigest, _) =>
                match ctx.propose proposer id { logs := [.babe_pre_digest predigest] }
                    MAX_PROPOSAL_DURATION false with
                | .error err =>
                  (.error (.StringError err), [.proposer_init, .proposed])
                | .ok proposal =>
                  if proposal.block.extrinsics.length = id.len ∧ create_empty = false then
                    (.error .EmptyTransactionPool, [.proposer_init, .proposed])
                  else
                    match ctx.import_block (buildImportParams proposal finalize) with
                    | .error e =>
                      (.error e,
                       [.proposer_init, .proposed,
                        .imported (buildImportParams proposal finalize)])
                    | .ok (.Imported aux) =>
                      (.ok { hash := proposal.block.header.hash, aux := aux },
                       [.proposer_init, .proposed,
                        .imported (buildImportParams proposal finalize)])
                    | .ok .Other =>
                      (.error .ImportFailed,
                       [.proposer_init, .proposed,
                        .imported (buildImportParams proposal finalize)])

/-- The import params submitted during a run, extracted from its events. -/
def importedParams (events : List SealEvent) : List BlockImportParams :=
  events.filterMap fun e =>
    match e with
    | .imported p => some p
    | _ => none

/-- A result delivered on a response channel by the engine loop:
`rpc::send_result(&mut sender, r)` for a seal, and the `FinalizeBlock`
path's delivery.  Modelled from the spec: delivery failure (caller gone) is
silently discarded, so delivery is recorded unconditionally. -/
inductive SentResult where
  | sealResult (sender : Option Nat) (r : Except Error CreatedBlock)
  | finalizeResult (sender : Option Nat) (r : Except Error Unit)
deriving DecidableEq

/-- The channel a delivered result was addressed to. -/
def SentResult.sender_of : SentResult → Option Nat
  | .sealResult s _ => s
  | .finalizeResult s _ => s

/-- Processing of one command by the engine loop body: `SealNewBlock` runs
the seal closure and sends its result; `FinalizeBlock` delegates to
`finalize_block` (modelled from the spec: delegate to the finalizer and
deliver its outcome on the response channel). -/
def engineStep (ctx : SealContext) : EngineCommand Nat → SentResult
  | .SealNewBlock ce fin ph sender =>
    .sealResult sender (seal_new_block ctx ce fin ph).1
  | .FinalizeBlock h sender j =>
    .finalizeResult sender (ctx.finalize_block h j)

/-- The command engine loop of `start_babe_manual_seal` (lib.rs lines
127-221): `while let Some(command) = commands_stream.next().await` over the
command source (a finite source is a list; its exhaustion is the empty
list), processing one command at a time and finally returning `Ok(())`.
Returns the loop's own result together with the results delivered on
response channels, in processing order. -/
def start_babe_manual_seal (ctx : SealContext) :
    List (EngineCommand Nat) → Except Error Unit × List SentResult
  | [] => (.ok (), [])
  | c :: rest =>
    let r := engineStep ctx c
    let (res, rs) := start_babe_manual_seal ctx rest
    (res, r :: rs)

/-- The collaborators of `BabeDigestProvider` (babe.rs): the shared epoch
changes' epoch-data and epoch-descriptor queries (with the genesis fallback
folded into the epoch-data query, as in `seal`) and keystore slot
claiming. -/
structure BabeDigestProvider where
  epoch_data_for_child_of : Nat → Nat → Nat → Except String (Option Nat)
  epoch_descriptor_for_child_of : Nat → Nat → Nat → Except String (Option Nat)
  claim_slot : Nat → Nat → Option (Nat × Nat)

/-- `BabeDigestProvider::create_digest` (babe.rs lines 88-116). -/
def BabeDigestProvider.create_digest (p : BabeDigestProvider)
    (parent : Header) (inherents : InherentData) : Except Error Digest :=
  match inherents.babe_inherent_data with
  | .error e => .error e
  | .ok slot_number =>
    match p.epoch_data_for_child_of parent.hash parent.number slot_number with
    | .error e => .error (.StringError ("failed to fetch epoch data: " ++ e))
    | .ok none => .error .InvalidAuthoritySet
    | .ok (some epoch) =>
      match p.claim_slot slot_number epoch with
      | none => .error (.StringError "failed to claim slot for authorship")
      | some (predigest, _) => .ok { logs := [.babe_pre_digest predigest] }

/-- `BabeDigestProvider::append_block_import` (babe.rs lines 118-145):
resolves the epoch descriptor for the parent/slot pair and inserts it into
the import params' intermediates under `INTERMEDIATE_KEY` (HashMap insert:
any previous binding of the key is replaced). -/
def BabeDigestProvider.append_block_import (p : BabeDigestProvider)
    (parent : Header) (params : BlockImportParams)
    (inherents : InherentData) : Except Error BlockImportParams :=
  match inherents.babe_inherent_data with
  | .error e => .error e
  | .ok slot_number =>
    match p.epoch_descriptor_for_child_of parent.hash parent.number slot_number with
    | .error e => .error (.StringError ("failed to fetch epoch data: " ++ e))
    | .ok none => .error .InvalidAuthoritySet
    | .ok (some d) =>
      .ok { params with
              intermediates :=
                (INTERMEDIATE_KEY, { epoch_descriptor := d }) ::
                  params.intermediates.filter (fun kv => kv.1 ≠ INTERMEDIATE_KEY) }

/-- SCALE compact encoding of an unsigned integer below `2^32` (the length
prefix written by `parity_scale_codec::Encode` for byte vectors): four
modes selected by the low two bits of the first byte, little-endian
throughout.  Bytes are `Nat`s below 256. -/
def compactEncode (n : Nat) : List Nat :=
  if n < 64 then [4 * n]
  else if n < 16384 then [(4 * n + 1) % 256, (4 * n + 1) / 256]
  else if n < 1073741824 then
    [(4 * n + 2) % 256, (4 * n + 2) / 256 % 256,
     (4 * n + 2) / 65536 % 256, (4 * n + 2) / 16777216]
  else [3, n % 256, n / 256 % 256, n / 65536 % 256, n / 16777216 % 256]

/-- SCALE compact decoding of a `u32`-range integer: reads the mode from
the low two bits of the first byte and returns the value together with the
unread remainder, or `none` on truncated input or a big-integer mode wider
than four bytes. -/
def compactDecode : List Nat → Option (Nat × List Nat)
  | [] => none
  | b :: rest =>
    if b % 4 = 0 then some (b / 4, rest)
    else if b % 4 = 1 then
      match rest with
      | b2 :: rest2 => some ((b + 256 * b2) / 4, rest2)
      | [] => none
    else if b % 4 = 2 then
      match rest with
      | b2 :: b3 :: b4 :: rest2 =>
        some ((b + 256 * b2 + 65536 * b3 + 16777216 * b4) / 4, rest2)
      | _ => none
    else
      if b / 4 = 0 then
        match rest with
        | b2 :: b3 :: b4 :: b5 :: rest2 =>
          some (b2 + 256 * b3 + 65536 * b4 + 16777216 * b5, rest2)
        | _ => none
      else none

/-- `Encode::encode` for a byte vector (`Vec<u8>` / the bytes of a
`String`): the compact length prefix followed by the bytes. -/
def scaleEncodeBytes (v : List Nat) : List Nat :=
  compactEncode v.length ++ v

/-- `Decode::decode` for a byte vector: compact length, then that many
bytes; returns the vector and the unread remainder. -/
def scaleDecodeBytes (bs : List Nat) : Option (List Nat × List Nat) :=
  match compactDecode bs with
  | some (len, rest) =>
    if len ≤ rest.length then some (rest.take len, rest.drop len) else none
  | none => none

/-- `<Vec<u8>>::decode(&mut &inner_vec[..])` as used by the `TryFrom`
conversion: decode from the front of the buffer, ignoring any remainder,
all errors collapsed to `()`. -/
def decodeVecU8 (bs : List Nat) : Except Unit (List Nat) :=
  match scaleDecodeBytes bs with
  | some (v, _) => .ok v
  | none => .error ()

/-- A UTF-8 continuation byte. -/
def utf8ContByte (b : Nat) : Bool := 128 ≤ b && b < 192

/-- Strict UTF-8 validity of a byte sequence, as enforced by
`String::from_utf8` (rejecting overlong forms, surrogates and code points
above U+10FFFF). -/
def validUtf8 : List Nat → Bool
  | [] => true
  | b :: rest =>
    if b ≤ 127 then validUtf8 rest
    else if 194 ≤ b && b ≤ 223 then
      match rest with
      | c :: r => utf8ContByte c && validUtf8 r
      | [] => false
    else if b = 224 then
      match rest with
      | c :: d :: r => (160 ≤ c && c < 192) && utf8ContByte d && validUtf8 r
      | _ => false
    else if (225 ≤ b && b ≤ 236) || b = 238 || b = 239 then
      match rest with
      | c :: d :: r => utf8ContByte c && utf8ContByte d && validUtf8 r
      | _ => false
    else if b = 237 then
      match rest with
      | c :: d :: r => (128 ≤ c && c < 160) && utf8ContByte d && validUtf8 r
      | _ => false
    else if b = 240 then
      match rest with
      | c :: d :: e :: r =>
        (144 ≤ c && c < 192) && utf8ContByte d && utf8ContByte e && validUtf8 r
      | _ => false
    else if 241 ≤ b && b ≤ 243 then
      match rest with
      | c :: d :: e :: r =>
        utf8ContByte c && utf8ContByte d && utf8ContByte e && validUtf8 r
      | _ => false
    else if b = 244 then
      match rest with
      | c :: d :: e :: r =>
        (128 ≤ c && c < 144) && utf8ContByte d && utf8ContByte e && validUtf8 r
      | _ => false
    else false

/-- `String::from_utf8`, over byte lists: the bytes themselves when valid
UTF-8, an error otherwise (errors collapsed to `()` as in the source's
`map_err`). -/
def string_from_utf8 (bs : List Nat) : Except Unit (List Nat) :=
  if validUtf8 bs then .ok bs else .error ()

/-- The libp2p collaborators used by the conversions, as opaque functions:
`PeerId::into_bytes` / `PeerId::from_bytes` and the multiaddr `Display`
(its UTF-8 bytes) / `Multiaddr::from_str` (over UTF-8 bytes), errors
collapsed to `()`. -/
structure Libp2pImpl (PeerId Multiaddr : Type) where
  peer_into_bytes : PeerId → List Nat
  peer_from_bytes : List Nat → Except Unit PeerId
  multiaddr_to_string : Multiaddr → List Nat
  multiaddr_from_str : List Nat → Except Unit Multiaddr

/-- `NetworkState` from `client/offchain/src/api.rs`. -/
structure NetworkState (PeerId Multiaddr : Type) where
  peer_id : PeerId
  external_addresses : List Multiaddr
deriving DecidableEq

/-- `OpaquePeerId`: SCALE-encoded peer-id bytes. -/
structure OpaquePeerId where
  bytes : List Nat
deriving DecidableEq

/-- `OpaqueMultiaddr`: SCALE-encoded UTF-8 text of one multiaddress. -/
structure OpaqueMultiaddr where
  bytes : List Nat
deriving DecidableEq

/-- `OpaqueNetworkState` from `sp_core::offchain`. -/
structure OpaqueNetworkState where
  peer_id : OpaquePeerId
  external_addresses : List OpaqueMultiaddr
deriving DecidableEq

/-- `impl From<NetworkState> for OpaqueNetworkState` (api.rs lines
236-255): SCALE-encode the peer-id bytes, and the textual form of each
multiaddress. -/
def networkStateToOpaque {PeerId Multiaddr : Type}
    (L : Libp2pImpl PeerId Multiaddr) (state : NetworkState PeerId Multiaddr) :
    OpaqueNetworkState :=
  { peer_id := { bytes := scaleEncodeBytes (L.peer_into_bytes state.peer_id) },
    external_addresses :=
      state.external_addresses.map fun multiaddr =>
        { bytes := scaleEncodeBytes (L.multiaddr_to_string multiaddr) } }

/-- `collect::<Result<Vec<_>, _>>()`: first error wins. -/
def collectExcept {α : Type} : List (Except Unit α) → Except Unit (List α)
  | [] => .ok []
  | x :: rest =>
    match x with
    | .error e => .error e
    | .ok a =>
      match collectExcept rest with
      | .error e => .error e
      | .ok as => .ok (a :: as)

/-- `impl TryFrom<OpaqueNetworkState> for NetworkState` (api.rs lines
257-283): SCALE-decode the peer-id bytes and rebuild the `PeerId`; for each
address SCALE-decode the bytes, re-validate them as UTF-8 and parse the
multiaddress; collect the results, first failure winning. -/
def opaqueToNetworkState {PeerId Multiaddr : Type}
    (L : Libp2pImpl PeerId Multiaddr) (state : OpaqueNetworkState) :
    Except Unit (NetworkState PeerId Multiaddr) :=
  match decodeVecU8 state.peer_id.bytes with
  | .error e => .error e
  | .ok bytes =>
    match L.peer_from_bytes bytes with
    | .error e => .error e
    | .ok peer_id =>
      match collectExcept (state.external_addresses.map fun enc_multiaddr =>
        match decodeVecU8 enc_multiaddr.bytes with
        | .error e => .error e
        | .ok bs =>
          match string_from_utf8 bs with
          | .error e => .error e
          | .ok multiaddr_str => L.multiaddr_from_str multiaddr_str) with
      | .error e => .error e
      | .ok external_addresses =>
        .ok { peer_id := peer_id, external_addresses := external_addresses }

/-- A concrete collaborator environment on which every step of a seal run
succeeds: one ready transaction, best header `(hash 10, number 1)`, one
inherent, slot 5, epoch token 1, a claimable slot, and a proposed block
with header `(hash 77, number 2)` and two extrinsics. -/
def ctxBase : SealContext :=
  { pool_ready := 1,
    header_of := fun _ => .ok (some { hash := 10, number := 1 }),
    best_chain := .ok { hash := 10, number := 1 },
    proposer_env := fun _ => .ok 0,
    create_inherent_data := .ok { len := 1, babe_inherent_data := .ok 5 },
    epoch_data_for_child_of := fun _ _ _ => .ok (some 1),
    claim_slot := fun _ _ => some (9, 0),
    propose := fun _ _ _ _ _ =>
      .ok { block := { header := { hash := 77, number := 2 },
                       extrinsics := [0, 1] } },
    import_block := fun _ => .ok (.Imported 3),
    finalize_block := fun _ _ => .ok () }

/-- `ctxBase` with an empty transaction pool. -/
def ctxEmptyPool : SealContext := { ctxBase with pool_ready := 0 }

/-- `ctxBase` with a header backend that knows no hash. -/
def ctxUnknownParent : SealContext :=
  { ctxBase with header_of := fun _ => .ok none }

/-- `ctxBase` with an empty pool and a header backend that knows no hash. -/
def ctxEmptyPoolUnknownParent : SealContext :=
  { ctxBase with pool_ready := 0, header_of := fun _ => .ok none }

/-- `ctxBase` with two inherents, so the proposed block's two extrinsics
are exactly the inherents-only count. -/
def ctxInherentsOnly : SealContext :=
  { ctxBase with
      create_inherent_data := .ok { len := 2, babe_inherent_data := .ok 5 } }

/-- `ctxBase` with a keystore holding no identity eligible for the slot. -/
def ctxNoClaim : SealContext :=
  { ctxBase with claim_slot := fun _ _ => none }

/-- A concrete digest provider whose epoch queries succeed (epoch token 1,
descriptor token 4). -/
def provBase : BabeDigestProvider :=
  { epoch_data_for_child_of := fun _ _ _ => .ok (some 1),
    epoch_descriptor_for_child_of := fun _ _ _ => .ok (some 4),
    claim_slot := fun _ _ => some (9, 0) }

/-- A concrete libp2p collaborator over raw byte lists: peer ids are their
own byte encodings and multiaddresses are their own textual bytes, so both
round-trip exactly (as the real `PeerId` / `Multiaddr` do). -/
def libp2pBytes : Libp2pImpl (List Nat) (List Nat) :=
  { peer_into_bytes := fun p => p,
    peer_from_bytes := fun bs => .ok bs,
    multiaddr_to_string := fun m => m,
    multiaddr_from_str := fun bs => .ok bs }

/-- A concrete network state: a three-byte peer id together with the ASCII
bytes of one IPv4 multiaddress, `/ip4/1.2.3.4/tcp/80`, and one IPv6
multiaddress, `/ip6/::1`. -/
def nsExample : NetworkState (List Nat) (List Nat) :=
  { peer_id := [0, 32, 7],
    external_addresses :=
      [[47, 105, 112, 52, 47, 49, 46, 50, 46, 51, 46, 52, 47, 116, 99, 112, 47, 56, 48],
       [47, 105, 112, 54, 47, 58, 58, 49]] }

/-- C1: the heartbeat debounce does NOT re-emit the debounced command.  At
the failing input — last emission at instant 0, a real command arriving at
instant 500 (0.5 s) with `min_blocktime = 1 s` — `poll_next` consumes the
command from the inner source, returns `Pending` (dropping the command and
its response channel), and arms the delay to a full `min_blocktime` from
now (firing at 1500, not at `min_blocktime - elapsed` past the emission,
which would be 1000); when that delay fires, the stream emits a synthetic
`SealNewBlock{create_empty: true}` heartbeat, not the dropped original. -/
theorem heartbeat_debounce_drops_real_command :
    HeartbeatStream.poll_next
        { delay_deadline := 30000, last_heartbeat := some 0,
          opts := { timeout := 30, min_blocktime := 1, finalize := false } }
        500
        (.Ready (some (.SealNewBlock false false none (some 7))))
      = ({ delay_deadline := 1500, last_heartbeat := some 0,
           opts := { timeout := 30, min_blocktime := 1, finalize := false } },
         .Pending)
    ∧ HeartbeatStream.poll_next
        { delay_deadline := 1500, last_heartbeat := some 0,
          opts := { timeout := 30, min_blocktime := 1, finalize := false } }
        1500 .Pending
      = ({ delay_deadline := 31500, last_heartbeat := some 1500,
           opts := { timeout := 30, min_blocktime := 1, finalize := false } },
         .Ready (some (.SealNewBlock true false none none)))
    ∧ ((EngineCommand.SealNewBlock true false none none : EngineCommand Nat)
         ≠ EngineCommand.SealNewBlock false false none (some 7)) :=
  ⟨by decide, by decide, by decide⟩

/-- C7: when the inner source yields nothing and the delay armed at the
last emission (instant `te`, deadline `te + timeout`) has fired, `poll_next`
emits exactly one synthetic `SealNewBlock` with `create_empty = true`,
`finalize = opts.finalize`, `parent_hash = none` and no response channel,
and re-arms the rolling window; until the re-armed deadline a further empty
poll emits nothing, so exactly one synthetic command is produced per
elapsed timeout. -/
theorem heartbeat_emits_synthetic_on_timeout
    (opts : HeartbeatOptions) (lh : Option Nat) (te now now2 : Nat)
    (hfire : te + from_secs opts.timeout ≤ now)
    (hearly : now2 < now + from_secs opts.timeout) :
    HeartbeatStream.poll_next
        { delay_deadline := te + from_secs opts.timeout,
          last_heartbeat := lh, opts := opts } now .Pending
      = ({ delay_deadline := now + from_secs opts.timeout,
           last_heartbeat := some now, opts := opts },
         .Ready (some (.SealNewBlock true opts.finalize none none)))
    ∧ HeartbeatStream.poll_next
        { delay_deadline := now + from_secs opts.timeout,
          last_heartbeat := some now, opts := opts } now2 .Pending
      = ({ delay_deadline := now + from_secs opts.timeout,
           last_heartbeat := some now, opts := opts },
         .Pending) := by
  constructor
  · simp only [HeartbeatStream.poll_next]
    rw [if_pos hfire]
  · simp only [HeartbeatStream.poll_next]
    rw [if_neg (by omega)]

/-- Witness for C7 at `timeout = 30 s`: last emission at 0, empty polls at
30000 and 30001. -/
theorem heartbeat_emits_synthetic_on_timeout_witness :
    (0 + from_secs 30 ≤ 30000) ∧ (30001 < 30000 + from_secs 30) ∧
    (HeartbeatStream.poll_next
        { delay_deadline := 0 + from_secs 30, last_heartbeat := none,
          opts := { timeout := 30, min_blocktime := 1, finalize := false } }
        30000 .Pending
      = ({ delay_deadline := 30000 + from_secs 30, last_heartbeat := some 30000,
           opts := { timeout := 30, min_blocktime := 1, finalize := false } },
         .Ready (some (.SealNewBlock true false none none)))) ∧
    (HeartbeatStream.poll_next
        { delay_deadline := 30000 + from_secs 30, last_heartbeat := some 30000,
          opts := { timeout := 30, min_blocktime := 1, finalize := false } }
        30001 .Pending
      = ({ delay_deadline := 30000 + from_secs 30, last_heartbeat := some 30000,
           opts := { timeout := 30, min_blocktime := 1, finalize := false } },
         .Pending)) := by
  have h := heartbeat_emits_synthetic_on_timeout
    { timeout := 30, min_blocktime := 1, finalize := false }
    none 0 30000 30001 (by decide) (by decide)
  exact ⟨by decide, by decide, h.1, h.2⟩

/-- C8: `HeartbeatStream::new` succeeds (returns a stream) exactly when
`min_blocktime ≤ timeout`; with `min_blocktime > timeout` it fails at
construction time (the source panics), so no stream exists to emit any
command. -/
theorem heartbeat_new_requires_min_blocktime_le_timeout
    (opts : HeartbeatOptions) (now : Nat) :
    (∃ hbs, HeartbeatStream.new opts now = .ok hbs)
      ↔ opts.min_blocktime ≤ opts.timeout := by
  unfold HeartbeatStream.new
  split
  · rename_i hgt
    constructor
    · rintro ⟨hbs, h⟩
      exact absurd h (by simp)
    · intro hle
      omega
  · rename_i hle
    constructor
    · intro _
      omega
    · intro _
      exact ⟨_, rfl⟩

/-- C10: with an empty pool and `create_empty = false`, the seal path
returns `EmptyTransactionPool` even when the named parent hash is unknown
to the header backend — the empty-pool check precedes parent resolution,
so `EmptyTransactionPool` takes precedence over `BlockNotFound`. -/
theorem empty_pool_precedes_block_not_found
    (ctx : SealContext) (fin : Bool) (h : Nat)
    (hpool : ctx.pool_ready = 0)
    (_hunknown : ctx.header_of h = .ok none) :
    seal_new_block ctx false fin (some h)
      = (.error .EmptyTransactionPool, []) := by
  unfold seal_new_block
  rw [if_pos ⟨hpool, rfl⟩]

/-- Witness for C10: empty pool, header backend knowing no hash. -/
theorem empty_pool_precedes_block_not_found_witness :
    ctxEmptyPoolUnknownParent.pool_ready = 0 ∧
    ctxEmptyPoolUnknownParent.header_of 5 = .ok none ∧
    seal_new_block ctxEmptyPoolUnknownParent false false (some 5)
      = (.error .EmptyTransactionPool, []) :=
  ⟨rfl, rfl, empty_pool_precedes_block_not_found
      ctxEmptyPoolUnknownParent false 5 rfl rfl⟩

/-- C3: with `create_empty = false` an empty pool is rejected with
`EmptyTransactionPool` and nothing reaches the import pipeline, both via
the early check (before the proposer is even initialized: the event trace
is empty) and via the post-proposal re-check (when the proposed block's
extrinsic count equals the inherents-only count: the trace shows proposer
use but no import event). -/
theorem empty_pool_rejected_before_and_after_proposing :
    (∀ (ctx : SealContext) (fin : Bool) (ph : Option Nat),
      ctx.pool_ready = 0 →
      seal_new_block ctx false fin ph = (.error .EmptyTransactionPool, [])) ∧
    (∀ (ctx : SealContext) (fin : Bool) (hdr : Header) (prop : Nat)
        (id : InherentData) (slot epoch pd aid : Nat) (prl : Proposal),
      ctx.pool_ready ≠ 0 →
      ctx.best_chain = .ok hdr →
      ctx.proposer_env hdr = .ok prop →
      ctx.create_inherent_data = .ok id →
      id.babe_inherent_data = .ok slot →
      ctx.epoch_data_for_child_of hdr.hash hdr.number slot = .ok (some epoch) →
      ctx.claim_slot slot epoch = some (pd, aid) →
      ctx.propose prop id { logs := [.babe_pre_digest pd] }
          MAX_PROPOSAL_DURATION false = .ok prl →
      prl.block.extrinsics.length = id.len →
      seal_new_block ctx false fin none
        = (.error .EmptyTransactionPool, [.proposer_init, .proposed])) := by
  constructor
  · intro ctx fin ph hpool
    unfold seal_new_block
    rw [if_pos ⟨hpool, rfl⟩]
  · intro ctx fin hdr prop id slot epoch pd aid prl
      hpool hbest hinit hid hslot hep hclaim hprop hlen
    unfold seal_new_block resolveParent
    rw [if_neg (by simp [hpool])]
    simp only [hbest, hinit, hid, hslot, hep, hclaim, hprop]
    rw [if_pos (by exact ⟨hlen, by trivial⟩)]

/-- Witness for C3: the early exit on `ctxEmptyPool` and the post-proposal
re-check on `ctxInherentsOnly` (two inherents, a proposed block with
exactly two extrinsics). -/
theorem empty_pool_rejected_before_and_after_proposing_witness :
    ctxEmptyPool.pool_ready = 0 ∧
    seal_new_block ctxEmptyPool false false none
      = (.error .EmptyTransactionPool, []) ∧
    ctxInherentsOnly.pool_ready ≠ 0 ∧
    seal_new_block ctxInherentsOnly false false none
      = (.error .EmptyTransactionPool, [.proposer_init, .proposed]) :=
  ⟨rfl,
   empty_pool_rejected_before_and_after_proposing.1 ctxEmptyPool false none rfl,
   by decide,
   empty_pool_rejected_before_and_after_proposing.2 ctxInherentsOnly false
     { hash := 10, number := 1 } 0
     { len := 2, babe_inherent_data := .ok 5 } 5 1 9 0
     { block := { header := { hash := 77, number := 2 }, extrinsics := [0, 1] } }
     (by decide) rfl rfl rfl rfl rfl rfl rfl rfl⟩

/-- C4 counterexample: a `SealNewBlock` whose `parent_hash` is unknown to
the header backend does NOT always return `BlockNotFound` — with an empty
pool and `create_empty = false` it returns `EmptyTransactionPool`
instead (the empty-pool check runs first). -/
theorem unknown_parent_not_always_block_not_found :
    seal_new_block ctxEmptyPoolUnknownParent false false (some 5)
      = (.error .EmptyTransactionPool, [])
    ∧ Error.EmptyTransactionPool ≠ Error.BlockNotFound "5" :=
  ⟨by decide, by decide⟩

/-- C4 amended: whenever the empty-pool early exit does not fire (pool
nonempty or `create_empty = true`), a `SealNewBlock` naming an unknown
parent hash returns `BlockNotFound` with the formatted hash, and the
proposer is never initialized nor invoked (empty event trace, so nothing
is imported either). -/
theorem unknown_parent_block_not_found_when_pool_check_passes
    (ctx : SealContext) (ce fin : Bool) (h : Nat)
    (hpool : ¬(ctx.pool_ready = 0 ∧ ce = false))
    (hunknown : ctx.header_of h = .ok none) :
    seal_new_block ctx ce fin (some h)
      = (.error (.BlockNotFound (toString h)), []) := by
  unfold seal_new_block resolveParent
  rw [if_neg hpool]
  simp only [hunknown]

/-- Witness for C4 amended: nonempty pool, unknown hash 5. -/
theorem unknown_parent_block_not_found_witness :
    ¬(ctxUnknownParent.pool_ready = 0 ∧ false = false) ∧
    ctxUnknownParent.header_of 5 = .ok none ∧
    seal_new_block ctxUnknownParent false false (some 5)
      = (.error (.BlockNotFound (toString 5)), []) :=
  ⟨by decide, rfl,
   unknown_parent_block_not_found_when_pool_check_passes
     ctxUnknownParent false false 5 (by decide) rfl⟩

/-- C5 counterexample: when the epoch resolves but no keystore identity
can claim the slot, the seal path returns the wrapped claim-slot string
error — not the distinct `SlotClaimFailed` variant of the spec
taxonomy. -/
theorem slot_claim_failure_not_distinct_variant :
    seal_new_block ctxNoClaim false false none
      = (.error (.StringError "failed to claim slot for authorship"),
         [.proposer_init])
    ∧ Error.StringError "failed to claim slot for authorship"
        ≠ Error.SlotClaimFailed :=
  ⟨by decide, by decide⟩

/-- C5 amended: when the epoch resolves and no local identity is eligible,
the seal path fails with the descriptive wrapped claim-slot string error —
distinguishable from `InvalidAuthoritySet` but itself a string-carrying
error, not a distinct variant. -/
theorem slot_claim_failure_yields_string_error
    (ctx : SealContext) (ce fin : Bool) (hdr : Header) (prop : Nat)
    (id : InherentData) (slot epoch : Nat)
    (hpool : ¬(ctx.pool_ready = 0 ∧ ce = false))
    (hbest : ctx.best_chain = .ok hdr)
    (hinit : ctx.proposer_env hdr = .ok prop)
    (hid : ctx.create_inherent_data = .ok id)
    (hslot : id.babe_inherent_data = .ok slot)
    (hep : ctx.epoch_data_for_child_of hdr.hash hdr.number slot = .ok (some epoch))
    (hclaim : ctx.claim_slot slot epoch = none) :
    seal_new_block ctx ce fin none
      = (.error (.StringError "failed to claim slot for authorship"),
         [.proposer_init])
    ∧ Error.StringError "failed to claim slot for authorship"
        ≠ Error.InvalidAuthoritySet := by
  constructor
  · unfold seal_new_block resolveParent
    rw [if_neg hpool]
    simp only [hbest, hinit, hid, hslot, hep, hclaim]
  · intro hcontra
    exact Error.noConfusion hcontra

/-- Witness for C5 amended: `ctxNoClaim`, whose epoch queries succeed and
whose keystore claims nothing. -/
theorem slot_claim_failure_yields_string_error_witness :
    ¬(ctxNoClaim.pool_ready = 0 ∧ false = false) ∧
    ctxNoClaim.claim_slot 5 1 = none ∧
    (seal_new_block ctxNoClaim false false none
      = (.error (.StringError "failed to claim slot for authorship"),
         [.proposer_init])
    ∧ Error.StringError "failed to claim slot for authorship"
        ≠ Error.InvalidAuthoritySet) :=
  ⟨by decide, rfl,
   slot_claim_failure_yields_string_error ctxNoClaim false false
     { hash := 10, number := 1 } 0
     { len := 1, babe_inherent_data := .ok 5 } 5 1
     (by decide) rfl rfl rfl rfl rfl rfl⟩

/-- C2 counterexample: a fully successful seal through
`start_babe_manual_seal` submits import params with origin own, the body,
the caller's finalize flag and longest-chain fork choice — but with EMPTY
intermediates: the epoch descriptor is never attached as side-channel data
on this path. -/
theorem successful_seal_attaches_no_intermediates :
    seal_new_block ctxBase false true none
      = (.ok { hash := 77, aux := 3 },
         [.proposer_init, .proposed,
          .imported { origin := .Own, header := { hash := 77, number := 2 },
                      body := some [0, 1], finalized := true,
                      fork_choice := some .LongestChain,
                      intermediates := [] }])
    ∧ (buildImportParams
        { block := { header := { hash := 77, number := 2 },
                     extrinsics := [0, 1] } } true).intermediates = [] :=
  ⟨by decide, by decide⟩

/-- C2 amended: every import-params value submitted by a succeeding
`SealNewBlock` carries origin own, a body, the caller's finalized flag and
longest-chain fork choice, but NO intermediates — `start_babe_manual_seal`
never attaches the epoch descriptor; the attachment exists only in
`BabeDigestProvider::append_block_import` (which this engine never calls),
and that function, when invoked with a resolvable descriptor, does insert
the descriptor under `INTERMEDIATE_KEY`. -/
theorem import_params_shape_and_descriptor_attachment :
    (∀ (ctx : SealContext) (ce fin : Bool) (ph : Option Nat)
        (cb : CreatedBlock) (res : Except Error CreatedBlock)
        (evs : List SealEvent),
      seal_new_block ctx ce fin ph = (res, evs) →
      res = .ok cb →
      ∀ p ∈ importedParams evs,
        p.origin = .Own ∧ p.body.isSome = true ∧ p.finalized = fin ∧
        p.fork_choice = some .LongestChain ∧ p.intermediates = []) ∧
    (∀ (prov : BabeDigestProvider) (parent : Header)
        (params : BlockImportParams) (inh : InherentData) (slot d : Nat),
      inh.babe_inherent_data = .ok slot →
      prov.epoch_descriptor_for_child_of parent.hash parent.number slot
        = .ok (some d) →
      prov.append_block_import parent params inh
        = .ok { params with
                  intermediates :=
                    (INTERMEDIATE_KEY, { epoch_descriptor := d }) ::
                      params.intermediates.filter
                        (fun kv => kv.1 ≠ INTERMEDIATE_KEY) }) := by
  constructor
  · intro ctx ce fin ph cb res evs hrun hok p hp
    unfold seal_new_block at hrun
    repeat' split at hrun
    all_goals
      (injection hrun with h1 h2; subst h1; subst h2;
       try exact Except.noConfusion hok)
    all_goals
      (simp only [importedParams, List.filterMap_cons, List.filterMap_nil,
        List.mem_singleton] at hp;
       subst hp;
       simp [buildImportParams, BlockImportParams.new])
  · intro prov parent params inh slot d hslot hdesc
    unfold BabeDigestProvider.append_block_import
    simp only [hslot, hdesc]

/-- Witness for C2 amended: the params of the successful `ctxBase` run, and
`append_block_import` on `provBase`. -/
theorem import_params_shape_and_descriptor_attachment_witness :
    ((buildImportParams
        { block := { header := { hash := 77, number := 2 },
                     extrinsics := [0, 1] } } true).origin = .Own ∧
     (buildImportParams
        { block := { header := { hash := 77, number := 2 },
                     extrinsics := [0, 1] } } true).body.isSome = true ∧
     (buildImportParams
        { block := { header := { hash := 77, number := 2 },
                     extrinsics := [0, 1] } } true).finalized = true ∧
     (buildImportParams
        { block := { header := { hash := 77, number := 2 },
                     extrinsics := [0, 1] } } true).fork_choice
        = some .LongestChain ∧
     (buildImportParams
        { block := { header := { hash := 77, number := 2 },
                     extrinsics := [0, 1] } } true).intermediates = []) ∧
    (provBase.append_block_import { hash := 10, number := 1 }
        (BlockImportParams.new .Own { hash := 10, number := 1 })
        { len := 1, babe_inherent_data := .ok 5 }
      = .ok { origin := .Own, header := { hash := 10, number := 1 },
              body := none, finalized := false, fork_choice := none,
              intermediates := [(INTERMEDIATE_KEY, { epoch_descriptor := 4 })] }) := by
  constructor
  · exact import_params_shape_and_descriptor_attachment.1
      ctxBase false true none { hash := 77, aux := 3 }
      (.ok { hash := 77, aux := 3 })
      [.proposer_init, .proposed,
       .imported { origin := .Own, header := { hash := 77, number := 2 },
                   body := some [0, 1], finalized := true,
                   fork_choice := some .LongestChain, intermediates := [] }]
      (by decide) rfl
      { origin := .Own, header := { hash := 77, number := 2 },
        body := some [0, 1], finalized := true,
        fork_choice := some .LongestChain, intermediates := [] }
      (by decide)
  · have h := import_params_shape_and_descriptor_attachment.2
      provBase { hash := 10, number := 1 }
      (BlockImportParams.new .Own { hash := 10, number := 1 })
      { len := 1, babe_inherent_data := .ok 5 } 5 4 rfl rfl
    simpa [BlockImportParams.new, INTERMEDIATE_KEY] using h

/-- C6: the command engine loop never aborts on a per-command error — for
every collaborator environment and every finite command sequence it returns
success exactly at source exhaustion, and delivers one result per command,
each on that command's own response channel, in order. -/
theorem engine_loop_captures_errors_and_ends_on_exhaustion
    (ctx : SealContext) (cmds : List (EngineCommand Nat)) :
    (start_babe_manual_seal ctx cmds).1 = .ok ()
    ∧ (start_babe_manual_seal ctx cmds).2.map SentResult.sender_of
        = cmds.map EngineCommand.sender_of
    ∧ (start_babe_manual_seal ctx cmds).2.length = cmds.length := by
  induction cmds with
  | nil => exact ⟨rfl, rfl, rfl⟩
  | cons c rest ih =>
    obtain ⟨ih1, ih2, ih3⟩ := ih
    rcases hrun : start_babe_manual_seal ctx rest with ⟨res, rs⟩
    rw [hrun] at ih1 ih2 ih3
    simp only at ih1 ih2 ih3
    refine ⟨?_, ?_, ?_⟩
    · simp only [start_babe_manual_seal, hrun]
      exact ih1
    · simp only [start_babe_manual_seal, hrun, List.map_cons]
      rw [ih2]
      cases c <;> rfl
    · simp only [start_babe_manual_seal, hrun, List.length_cons]
      rw [ih3]

/-- Compact round trip: decoding an encoded value below `2^32` recovers the
value and leaves the remainder unread. -/
theorem compactDecode_compactEncode (n : Nat) (h : n < 4294967296)
    (rest : List Nat) :
    compactDecode (compactEncode n ++ rest) = some (n, rest) := by
  unfold compactEncode
  by_cases h1 : n < 64
  · rw [if_pos h1]
    simp only [List.cons_append, List.nil_append, compactDecode]
    rw [if_pos (by omega)]
    simp only [Option.some.injEq, Prod.mk.injEq]
    exact ⟨by omega, trivial⟩
  · rw [if_neg h1]
    by_cases h2 : n < 16384
    · rw [if_pos h2]
      simp only [List.cons_append, List.nil_append, compactDecode]
      rw [if_neg (by omega), if_pos (by omega)]
      simp only [Option.some.injEq, Prod.mk.injEq]
      exact ⟨by omega, trivial⟩
    · rw [if_neg h2]
      by_cases h3 : n < 1073741824
      · rw [if_pos h3]
        simp only [List.cons_append, List.nil_append, compactDecode]
        rw [if_neg (by omega), if_neg (by omega), if_pos (by omega)]
        simp only [Option.some.injEq, Prod.mk.injEq]
        exact ⟨by omega, trivial⟩
      · rw [if_neg h3]
        simp only [List.cons_append, List.nil_append, compactDecode]
        rw [if_neg (by decide), if_neg (by decide), if_neg (by decide),
          if_pos trivial]
        simp only [Option.some.injEq, Prod.mk.injEq]
        exact ⟨by omega, trivial⟩

/-- Byte-vector round trip: decoding an encoded vector (length below
`2^32`, as guaranteed by the codec's `u32` length prefix) recovers the
vector and leaves the remainder unread. -/
theorem scaleDecodeBytes_scaleEncodeBytes (v rest : List Nat)
    (h : v.length < 4294967296) :
    scaleDecodeBytes (scaleEncodeBytes v ++ rest) = some (v, rest) := by
  unfold scaleEncodeBytes scaleDecodeBytes
  rw [List.append_assoc]
  simp only [compactDecode_compactEncode v.length h (v ++ rest)]
  rw [if_pos (by simp)]
  rw [List.take_left, List.drop_left]

/-- Decoding an exactly encoded vector recovers it. -/
theorem decodeVecU8_scaleEncodeBytes (v : List Nat)
    (h : v.length < 4294967296) :
    decodeVecU8 (scaleEncodeBytes v) = .ok v := by
  unfold decodeVecU8
  have h2 := scaleDecodeBytes_scaleEncodeBytes v [] h
  rw [List.append_nil] at h2
  rw [h2]

/-- Collecting a mapped list of successes yields the list of values. -/
theorem collectExcept_map_ok {α β : Type} (f : β → Except Unit α)
    (g : β → α) (l : List β) (h : ∀ b ∈ l, f b = .ok (g b)) :
    collectExcept (l.map f) = .ok (l.map g) := by
  induction l with
  | nil => rfl
  | cons b rest ih =>
    simp only [List.map_cons, collectExcept]
    rw [h b (by simp), ih (fun x hx => h x (by simp [hx]))]

/-- C9: converting a `NetworkState` to `OpaqueNetworkState` and back yields
`Ok` of the original, for every peer id whose libp2p byte round trip is
faithful and every list of multiaddresses (IPv4, IPv6 or mixed) whose
textual form is valid UTF-8 and parses back — exactly the guarantees the
external `PeerId` and `Multiaddr` types provide.  The length bounds mirror
the codec's `u32` compact length prefix. -/
theorem network_state_roundtrip {PeerId Multiaddr : Type}
    (L : Libp2pImpl PeerId Multiaddr) (s : NetworkState PeerId Multiaddr)
    (hpeer : L.peer_from_bytes (L.peer_into_bytes s.peer_id) = .ok s.peer_id)
    (hpeerlen : (L.peer_into_bytes s.peer_id).length < 4294967296)
    (haddr : ∀ m ∈ s.external_addresses,
      validUtf8 (L.multiaddr_to_string m) = true ∧
      L.multiaddr_from_str (L.multiaddr_to_string m) = .ok m ∧
      (L.multiaddr_to_string m).length < 4294967296) :
    opaqueToNetworkState L (networkStateToOpaque L s) = .ok s := by
  unfold networkStateToOpaque opaqueToNetworkState
  simp only [decodeVecU8_scaleEncodeBytes _ hpeerlen, hpeer, List.map_map]
  have hcoll :
      collectExcept
        (List.map
          ((fun enc_multiaddr : OpaqueMultiaddr =>
              match decodeVecU8 enc_multiaddr.bytes with
              | Except.error e => Except.error e
              | Except.ok bs =>
                match string_from_utf8 bs with
                | Except.error e => Except.error e
                | Except.ok multiaddr_str => L.multiaddr_from_str multiaddr_str) ∘
            fun multiaddr => { bytes := scaleEncodeBytes (L.multiaddr_to_string multiaddr) })
          s.external_addresses)
        = Except.ok (List.map (fun m => m) s.external_addresses) := by
    apply collectExcept_map_ok
    intro m hm
    obtain ⟨hv, hstr, hlen⟩ := haddr m hm
    simp [Function.comp_apply, decodeVecU8_scaleEncodeBytes _ hlen,
      string_from_utf8, hv, hstr]
  rw [hcoll]
  simp

/-- Witness for C9: the byte-level libp2p collaborator, a three-byte peer
id, and a mixed IPv4/IPv6 address list. -/
theorem network_state_roundtrip_witness :
    (libp2pBytes.peer_from_bytes (libp2pBytes.peer_into_bytes nsExample.peer_id)
       = .ok nsExample.peer_id) ∧
    ((libp2pBytes.peer_into_bytes nsExample.peer_id).length < 4294967296) ∧
    (∀ m ∈ nsExample.external_addresses,
      validUtf8 (libp2pBytes.multiaddr_to_string m) = true ∧
      libp2pBytes.multiaddr_from_str (libp2pBytes.multiaddr_to_string m)
        = .ok m ∧
      (libp2pBytes.multiaddr_to_string m).length < 4294967296) ∧
    opaqueToNetworkState libp2pBytes (networkStateToOpaque libp2pBytes nsExample)
      = .ok nsExample :=
  ⟨rfl, by decide, by decide,
   network_state_roundtrip libp2pBytes nsExample rfl (by decide) (by decide)⟩
